import Mathlib

/-!
Verification of the budget-tracking data model and authorization engine of
the django-celery-budget-system repository.

Monetary amounts (budgets, expense amounts, aggregated spend) are decimals
with two fractional digits in the source; here they are embedded exactly as
integers counting cents, so all arithmetic is exact.

The relational store is embedded as explicit lists of rows: a list of
`Campaign` rows and a list of `Expense` rows.  Django query-set filters
become `List.filter`, the SQL `Sum` aggregate (which yields NULL on an
empty row set) becomes `sum_amounts : List Expense → Option Int`, and
Python's `total or Decimal ("0.00")` becomes `or_zero`.
-/

namespace BudgetSystem

/-- A calendar date, compared lexicographically on (year, month, day),
exactly as Python `datetime.date` and SQL `DATE` compare. -/
structure Date where
  year : Nat
  month : Nat
  day : Nat
deriving DecidableEq, Repr

/-- Python `a < b` on dates: lexicographic on (year, month, day). -/
def Date.lt (a b : Date) : Bool :=
  decide (a.year < b.year ∨ (a.year = b.year ∧
    (a.month < b.month ∨ (a.month = b.month ∧ a.day < b.day))))

/-- SQL `a <= b` on dates (used by the `date__gte` / `date__lte` filters). -/
def Date.le (a b : Date) : Bool :=
  Date.lt a b || a == b

/-- `today.replace(day=1)` from the source: same year and month, day set to 1. -/
def Date.replaceDay (d : Date) (day : Nat) : Date :=
  Date.mk d.year d.month day

/-- Brand row: `name` is irrelevant to the claims and omitted; `id` is the
primary key; budgets are `DecimalField(max_digits=12, decimal_places=2)`
with default 0.00, embedded as cents. -/
structure Brand where
  id : Nat
  daily_budget : Int
  monthly_budget : Int
deriving DecidableEq, Repr

/-- Campaign row: `brand` is the foreign key to `Brand.id`; `start_date` and
`end_date` are nullable (`null=True`), so they are `Option Date`. -/
structure Campaign where
  id : Nat
  brand : Nat
  daily_budget : Int
  monthly_budget : Int
  active : Bool
  start_date : Option Date
  end_date : Option Date
deriving DecidableEq, Repr

/-- Schedule row: one-to-one with a campaign; hours stored as integers,
`start_hour` default 0, `end_hour` default 24 (24 means end of day). -/
structure Schedule where
  campaign : Nat
  start_hour : Nat
  end_hour : Nat
deriving DecidableEq, Repr

/-- Expense row: `campaign` is the foreign key to `Campaign.id`; `amount` is
a `DecimalField(max_digits=12, decimal_places=2)` in cents; the free-text
`notes` column is irrelevant to the claims and omitted. -/
structure Expense where
  campaign : Nat
  amount : Int
  date : Date
deriving DecidableEq, Repr

/-- SQL `Sum("amount")` over a row set: NULL (`none`) when no rows match,
otherwise the sum of the `amount` column. -/
def sum_amounts (l : List Expense) : Option Int :=
  match l with
  | [] => none
  | _ => some ((l.map Expense.amount).sum)

/-- Python `total or Decimal ("0.00")`: `None` is falsy and so is the zero
decimal, both are replaced by 0.00; any other total is returned as is. -/
def or_zero (t : Option Int) : Int :=
  match t with
  | none => 0
  | some v => if v = 0 then 0 else v

/-- `Brand.spent_today`: sum of all expenses across all of the brand's
campaigns dated today.  The `campaign__brand=self` filter resolves each
expense's campaign foreign key and keeps the row when that campaign belongs
to this brand. -/
def Brand.spent_today (b : Brand) (today : Date)
    (campaigns : List Campaign) (expenses : List Expense) : Int :=
  or_zero (sum_amounts (expenses.filter (fun e =>
    campaigns.any (fun c => c.id == e.campaign && c.brand == b.id)
      && e.date == today)))

/-- `Brand.spent_this_month`: sum of all expenses across all of the brand's
campaigns with `month_start <= date <= today`, where
`month_start = today.replace(day=1)`. -/
def Brand.spent_this_month (b : Brand) (today : Date)
    (campaigns : List Campaign) (expenses : List Expense) : Int :=
  or_zero (sum_amounts (expenses.filter (fun e =>
    campaigns.any (fun c => c.id == e.campaign && c.brand == b.id)
      && Date.le (today.replaceDay 1) e.date && Date.le e.date today)))

/-- `Campaign.spent_today`: sum of this campaign's expenses dated today. -/
def Campaign.spent_today (c : Campaign) (today : Date)
    (expenses : List Expense) : Int :=
  or_zero (sum_amounts (expenses.filter (fun e =>
    e.campaign == c.id && e.date == today)))

/-- `Campaign.spent_this_month`: sum of this campaign's expenses with
`month_start <= date <= today`, `month_start = today.replace(day=1)`. -/
def Campaign.spent_this_month (c : Campaign) (today : Date)
    (expenses : List Expense) : Int :=
  or_zero (sum_amounts (expenses.filter (fun e =>
    e.campaign == c.id
      && Date.le (today.replaceDay 1) e.date && Date.le e.date today)))

/-- `Campaign.within_date_window`: true if today is within
`start_date`/`end_date` when set.  A set `start_date` with
`today < start_date` fails; a set `end_date` with `today > end_date` fails;
otherwise true.  (A Python `date` object is always truthy, so the
`if self.start_date` guard is exactly a None test.) -/
def Campaign.within_date_window (c : Campaign) (today : Date) : Bool :=
  !(match c.start_date with
    | some sd => Date.lt today sd
    | none => false)
  && !(match c.end_date with
    | some ed => Date.lt ed today
    | none => false)

/-- An evaluation instant: a calendar date plus an hour of day (0-23). -/
structure Instant where
  date : Date
  hour : Nat
deriving DecidableEq, Repr

/-- Modelled from the spec: the source defines no hour-consulting logic, only
the Schedule row.  Hour check of the Window Evaluator (spec 4.1): with no
schedule attached the campaign is unrestricted by hour; with a schedule,
pass iff `start_hour <= h < end_hour` (`end_hour = 24` is end of day). -/
def hour_ok (sch : Option Schedule) (h : Nat) : Bool :=
  match sch with
  | none => true
  | some s => decide (s.start_hour ≤ h) && decide (h < s.end_hour)

/-- Modelled from the spec: the source defines no combined window evaluator.
`is_within_window` (spec 4.1): an inactive campaign fails regardless of
date and hour; otherwise the date check (the source's
`within_date_window`) and the hour check must both pass. -/
def is_within_window (c : Campaign) (sch : Option Schedule) (i : Instant) : Bool :=
  c.active && c.within_date_window i.date && hour_ok sch i.hour

/-- Modelled from the spec: Budget Ledger (spec 4.2) `raw_remaining`,
`cap - spent`, possibly negative. -/
def raw_remaining (cap spent : Int) : Int :=
  cap - spent

/-- Modelled from the spec: Budget Ledger (spec 4.2) `capped_remaining`,
`max(0, raw_remaining)`. -/
def capped_remaining (cap spent : Int) : Int :=
  max 0 (raw_remaining cap spent)

/-- Modelled from the spec: the cap test of the Spend Authorization Engine
(spec 4.3): a scope denies iff its cap is set (non-zero) and
`spent + proposed_amount > cap`. -/
def cap_fails (cap spent proposed : Int) : Bool :=
  decide (cap ≠ 0) && decide (cap < spent + proposed)

/-- Decision codes of the Spend Authorization Engine (spec 4.3). -/
inductive Decision where
  | ALLOWED
  | DENIED_INACTIVE
  | DENIED_OUT_OF_WINDOW
  | DENIED_BRAND_DAILY_CAP
  | DENIED_BRAND_MONTHLY_CAP
  | DENIED_CAMPAIGN_DAILY_CAP
  | DENIED_CAMPAIGN_MONTHLY_CAP
deriving DecidableEq, Repr

/-- The entity snapshot the engine consumes (spec 6): brand and campaign
rows, the optional schedule, the four pre-aggregated spend figures, and the
evaluation instant. -/
structure Snapshot where
  brand : Brand
  campaign : Campaign
  schedule : Option Schedule
  brand_spent_today : Int
  brand_spent_month : Int
  campaign_spent_today : Int
  campaign_spent_month : Int
  instant : Instant
deriving DecidableEq, Repr

/-- Modelled from the spec: the source defines no authorization function.
`authorize` (spec 4.3): first failing check wins, in the fixed order
inactive, window, brand-day, brand-month, campaign-day, campaign-month;
`ALLOWED` when all pass. -/
def authorize (s : Snapshot) (proposed : Int) : Decision :=
  if !s.campaign.active then .DENIED_INACTIVE
  else if !is_within_window s.campaign s.schedule s.instant then
    .DENIED_OUT_OF_WINDOW
  else if cap_fails s.brand.daily_budget s.brand_spent_today proposed then
    .DENIED_BRAND_DAILY_CAP
  else if cap_fails s.brand.monthly_budget s.brand_spent_month proposed then
    .DENIED_BRAND_MONTHLY_CAP
  else if cap_fails s.campaign.daily_budget s.campaign_spent_today proposed then
    .DENIED_CAMPAIGN_DAILY_CAP
  else if cap_fails s.campaign.monthly_budget s.campaign_spent_month proposed then
    .DENIED_CAMPAIGN_MONTHLY_CAP
  else .ALLOWED

/-- The month period as the spec words it: a date is in the period of
`today` iff it lies in the same calendar year and month and its day is
between 1 and today's day, both inclusive (the fixed-start window from the
1st of the month through the evaluation date). -/
def date_in_month (d today : Date) : Bool :=
  d.year == today.year && d.month == today.month
    && decide (1 ≤ d.day) && decide (d.day ≤ today.day)

/-- Scenario B of the spec: an inactive campaign with every budget unset
(0.00) and no schedule. -/
def scenario_B : Snapshot :=
  Snapshot.mk (Brand.mk 1 0 0) (Campaign.mk 1 1 0 0 false none none) none
    0 0 0 0 (Instant.mk (Date.mk 2026 10 12) 12)

/-- Scenario C of the spec: campaign daily cap 20.00, brand daily cap
1000.00, campaign spent today 15.00 (which is also the brand's spend for
the day), active, windowless, no schedule. -/
def scenario_C : Snapshot :=
  Snapshot.mk (Brand.mk 1 100000 0) (Campaign.mk 1 1 2000 0 true none none) none
    1500 1500 1500 1500 (Instant.mk (Date.mk 2026 10 12) 12)

/-- Validity of an `Expense.amount` value under the source's field
declaration `DecimalField(max_digits=12, decimal_places=2)` with no further
validators: any decimal of at most 12 digits (2 of them fractional), of
either sign, is accepted.  In cents: `|cents| < 10^12`. -/
def expense_amount_valid (cents : Int) : Bool :=
  decide (cents.natAbs < 10 ^ 12)

/-- A two-campaign, two-brand sample database used to witness concrete
evaluations: campaigns 1 and 2 belong to brand 1, campaign 3 to brand 2. -/
def sample_campaigns : List Campaign :=
  [Campaign.mk 1 1 0 0 true none none,
   Campaign.mk 2 1 0 0 true none none,
   Campaign.mk 3 2 0 0 true none none]

/-- Sample expenses: campaign 1 spent 10.00 and 2.50 today (2026-05-10),
campaign 2 spent 4.00 today and 7.00 earlier this month, campaign 3 spent
99.00 today. -/
def sample_expenses : List Expense :=
  [Expense.mk 1 1000 (Date.mk 2026 5 10),
   Expense.mk 1 250 (Date.mk 2026 5 10),
   Expense.mk 2 400 (Date.mk 2026 5 10),
   Expense.mk 2 700 (Date.mk 2026 5 3),
   Expense.mk 3 9900 (Date.mk 2026 5 10)]

/-! ## Helper lemmas -/

/-- Collapsing the NULL-handling: `total or Decimal ("0.00")` applied to a
SQL sum is just the plain list sum (an empty row set sums to 0). -/
theorem or_zero_sum_amounts (l : List Expense) :
    or_zero (sum_amounts l) = (l.map Expense.amount).sum := by
  cases l with
  | nil => rfl
  | cons e t =>
    simp only [sum_amounts, or_zero]
    split
    · omega
    · rfl

/-- Summing a filtered list equals summing the full list with non-matching
rows contributing 0. -/
theorem sum_filter_eq (p : Expense → Bool) (l : List Expense) :
    ((l.filter p).map Expense.amount).sum
      = (l.map (fun e => if p e then e.amount else 0)).sum := by
  induction l with
  | nil => rfl
  | cons e t ih => by_cases h : p e = true <;> simp [List.filter_cons, h, ih]

/-- A constant-zero sum vanishes. -/
theorem sum_map_zero {α : Type} (l : List α) :
    (l.map (fun _ => (0 : Int))).sum = 0 := by
  induction l <;> simp [*]

/-- Pointwise addition distributes over list sums. -/
theorem sum_map_add {α : Type} (l : List α) (f g : α → Int) :
    (l.map (fun x => f x + g x)).sum = (l.map f).sum + (l.map g).sum := by
  induction l with
  | nil => rfl
  | cons a t ih => simp only [List.map_cons, List.sum_cons, ih]; ring

/-- Exchanging a double list sum. -/
theorem sum_map_comm (L : List Campaign) (E : List Expense)
    (f : Campaign → Expense → Int) :
    (L.map (fun c => (E.map (f c)).sum)).sum
      = (E.map (fun e => (L.map (fun c => f c e)).sum)).sum := by
  induction L with
  | nil => simp [sum_map_zero]
  | cons c t ih =>
    simp only [List.map_cons, List.sum_cons, ih]
    rw [sum_map_add E (fun e => f c e)
      (fun e => (t.map (fun c => f c e)).sum)]

/-- If no campaign in the list carries the expense's foreign key, the
per-campaign contributions of that expense all vanish. -/
theorem sum_if_zero_of_no_id (t : List Campaign) (bid : Nat) (e : Expense)
    (amt : Int) (h : ∀ c ∈ t, c.id ≠ e.campaign) :
    ((t.filter (fun c => c.brand == bid)).map
      (fun c => if e.campaign == c.id then amt else 0)).sum = 0 := by
  induction t with
  | nil => rfl
  | cons c t ih =>
    have h1 : ¬(e.campaign = c.id) :=
      fun hh => h c (List.mem_cons_self c t) hh.symm
    have ht : ∀ c' ∈ t, c'.id ≠ e.campaign :=
      fun c' hm => h c' (List.mem_cons_of_mem c hm)
    by_cases hb : c.brand = bid <;>
      simp [List.filter_cons, hb, h1] <;>
      simpa using ih ht

/-- With unique campaign primary keys, the sum of a single expense's
contributions over the brand's campaigns equals its contribution under the
brand-join filter. -/
theorem any_split (campaigns : List Campaign) (bid : Nat) (e : Expense)
    (amt : Int) (hnd : (campaigns.map Campaign.id).Nodup) :
    ((campaigns.filter (fun c => c.brand == bid)).map
      (fun c => if e.campaign == c.id then amt else 0)).sum
    = if campaigns.any (fun c => c.id == e.campaign && c.brand == bid)
      then amt else 0 := by
  induction campaigns with
  | nil => rfl
  | cons c t ih =>
    rw [List.map_cons, List.nodup_cons] at hnd
    obtain ⟨hnotin, hndt⟩ := hnd
    have iht := ih hndt
    by_cases hb : c.brand = bid <;> by_cases hid : c.id = e.campaign
    · have hzero : ((t.filter (fun c => c.brand == bid)).map
          (fun c => if e.campaign == c.id then amt else 0)).sum = 0 := by
        refine sum_if_zero_of_no_id t bid e amt (fun c' hm hceq => ?_)
        exact hnotin (List.mem_map.mpr ⟨c', hm, by rw [hceq, ← hid]⟩)
      simp [List.filter_cons, List.any_cons, hb, hid]
      simpa using hzero
    · have hid2 : ¬(e.campaign = c.id) := fun hh => hid hh.symm
      simp [List.filter_cons, List.any_cons, hb, hid, hid2]
      simpa using iht
    · simp [List.filter_cons, List.any_cons, hb, hid]
      simpa using iht
    · simp [List.filter_cons, List.any_cons, hb, hid]
      simpa using iht

/-- The brand-scope aggregation splits into the per-campaign aggregations,
for any date predicate, provided campaign primary keys are unique. -/
theorem brand_split (bid : Nat) (campaigns : List Campaign)
    (expenses : List Expense) (dp : Expense → Bool)
    (hnd : (campaigns.map Campaign.id).Nodup) :
    ((expenses.filter (fun e =>
        campaigns.any (fun c => c.id == e.campaign && c.brand == bid)
          && dp e)).map Expense.amount).sum
      = ((campaigns.filter (fun c => c.brand == bid)).map
          (fun c => ((expenses.filter (fun e =>
            e.campaign == c.id && dp e)).map Expense.amount).sum)).sum := by
  rw [sum_filter_eq]
  simp only [sum_filter_eq]
  rw [sum_map_comm (campaigns.filter (fun c => c.brand == bid)) expenses
    (fun c e => if e.campaign == c.id && dp e then e.amount else 0)]
  congr 1
  refine List.map_congr_left (fun e _ => ?_)
  by_cases hdp : dp e = true
  · simp only [hdp, Bool.and_true]
    exact (any_split campaigns bid e e.amount hnd).symm
  · have hdp' : dp e = false := by
      cases hq : dp e
      · rfl
      · exact absurd hq hdp
    simp [hdp', sum_map_zero]

/-- `Date.lt` decides the lexicographic strict order. -/
theorem Date.lt_iff (a b : Date) : Date.lt a b = true ↔
    (a.year < b.year ∨ (a.year = b.year ∧
      (a.month < b.month ∨ (a.month = b.month ∧ a.day < b.day)))) := by
  simp [Date.lt]

/-- The lexicographic order on dates is total: `a < b` is false exactly
when `b ≤ a`. -/
theorem Date.lt_eq_false_iff (a b : Date) :
    Date.lt a b = false ↔ Date.le b a = true := by
  cases a
  cases b
  simp only [Date.lt, Date.le, Bool.or_eq_true, beq_iff_eq, Date.mk.injEq,
    decide_eq_false_iff_not, decide_eq_true_eq]
  omega

/-- The month filter `month_start <= d <= today` (with
`month_start = today.replace(day=1)`) holds exactly on the days of today's
calendar month up to and including today. -/
theorem month_window_eq (d today : Date) :
    (Date.le (today.replaceDay 1) d && Date.le d today) = date_in_month d today := by
  cases d
  cases today
  refine Bool.eq_iff_iff.mpr ?_
  simp only [Date.le, Date.lt, Date.replaceDay, date_in_month, Bool.and_eq_true,
    Bool.or_eq_true, beq_iff_eq, Date.mk.injEq, decide_eq_true_eq]
  omega

/-- The month filter under an extra conjunct. -/
theorem month_window_and (x : Bool) (d today : Date) :
    (x && Date.le (today.replaceDay 1) d && Date.le d today)
      = (x && date_in_month d today) := by
  rw [Bool.and_assoc, month_window_eq]

/-! ## Claim theorems -/

/-- C1: the date-window check fails exactly when a set `start_date` is
after the evaluation date or a set `end_date` is before it, both bounds
inclusive: `within_date_window` is true precisely on `[start_date,
end_date]`, an absent bound being unbounded on its side. -/
theorem C1_within_date_window_iff (c : Campaign) (today : Date) :
    c.within_date_window today = true ↔
      ((∀ sd, c.start_date = some sd → Date.le sd today = true) ∧
       (∀ ed, c.end_date = some ed → Date.le today ed = true)) := by
  rcases hs : c.start_date with _ | sd <;> rcases he : c.end_date with _ | ed <;>
    simp [Campaign.within_date_window, hs, he, Bool.and_eq_true,
      Bool.not_eq_true', Date.lt_eq_false_iff]

/-- C2: an inactive campaign fails the window evaluation and is denied
with `DENIED_INACTIVE`, regardless of dates, schedule, spends and the
proposed amount. -/
theorem C2_inactive_overrides (s : Snapshot) (p : Int)
    (h : s.campaign.active = false) :
    is_within_window s.campaign s.schedule s.instant = false ∧
    authorize s p = Decision.DENIED_INACTIVE := by
  constructor
  · simp [is_within_window, h]
  · simp [authorize, h]

/-- Witness for C2 at scenario B (inactive campaign, all budgets unset). -/
theorem C2_witness :
    is_within_window scenario_B.campaign scenario_B.schedule scenario_B.instant = false ∧
    authorize scenario_B 100 = Decision.DENIED_INACTIVE :=
  C2_inactive_overrides scenario_B 100 rfl

/-- C3: with no schedule every hour passes; with a schedule hour `h`
passes iff `start_hour ≤ h < end_hour`, so for 9-17 hours 8 and 17 fail
while 9 and 16 pass, and `end_hour = 24` passes every hour from
`start_hour` on with no wraparound past midnight. -/
theorem C3_hour_check :
    (∀ h : Nat, h < 24 → hour_ok none h = true)
    ∧ (∀ (s : Schedule) (h : Nat),
        hour_ok (some s) h = true ↔ (s.start_hour ≤ h ∧ h < s.end_hour))
    ∧ (hour_ok (some (Schedule.mk 0 9 17)) 8 = false
       ∧ hour_ok (some (Schedule.mk 0 9 17)) 9 = true
       ∧ hour_ok (some (Schedule.mk 0 9 17)) 16 = true
       ∧ hour_ok (some (Schedule.mk 0 9 17)) 17 = false)
    ∧ (∀ (s : Schedule) (h : Nat), s.end_hour = 24 → h < 24 →
        (hour_ok (some s) h = true ↔ s.start_hour ≤ h)) := by
  refine ⟨fun h _ => rfl, fun s h => by simp [hour_ok], by decide,
    fun s h he hh => ?_⟩
  simp [hour_ok, he, hh]

/-- Witness for C3: the unrestricted case at hour 5 and the
`end_hour = 24` case at hour 23. -/
theorem C3_witness :
    hour_ok none 5 = true ∧
    (hour_ok (some (Schedule.mk 0 3 24)) 23 = true ↔ 3 ≤ 23) :=
  ⟨C3_hour_check.1 5 (by decide),
   C3_hour_check.2.2.2 (Schedule.mk 0 3 24) 23 rfl (by decide)⟩

/-- C4: when no expense row falls in the aggregated scope and period, each
of the four aggregation helpers returns the explicit zero (the SQL NULL sum
is coerced to 0.00, never propagated). -/
theorem C4_empty_period_zero (b : Brand) (c : Campaign) (today : Date)
    (campaigns : List Campaign) (expenses : List Expense) :
    ((∀ e ∈ expenses,
        (campaigns.any (fun cc => cc.id == e.campaign && cc.brand == b.id)) = true →
        e.date ≠ today) →
      Brand.spent_today b today campaigns expenses = 0)
    ∧ ((∀ e ∈ expenses,
        (campaigns.any (fun cc => cc.id == e.campaign && cc.brand == b.id)) = true →
        ¬(Date.le (today.replaceDay 1) e.date = true ∧ Date.le e.date today = true)) →
      Brand.spent_this_month b today campaigns expenses = 0)
    ∧ ((∀ e ∈ expenses, e.campaign = c.id → e.date ≠ today) →
      Campaign.spent_today c today expenses = 0)
    ∧ ((∀ e ∈ expenses, e.campaign = c.id →
        ¬(Date.le (today.replaceDay 1) e.date = true ∧ Date.le e.date today = true)) →
      Campaign.spent_this_month c today expenses = 0) := by
  refine ⟨fun h => ?_, fun h => ?_, fun h => ?_, fun h => ?_⟩
  · have hnil : expenses.filter (fun e =>
        campaigns.any (fun c => c.id == e.campaign && c.brand == b.id)
          && e.date == today) = [] := by
      refine List.filter_eq_nil_iff.mpr (fun e he => ?_)
      simp only [Bool.and_eq_true, beq_iff_eq, not_and]
      exact fun ha => h e he ha
    unfold Brand.spent_today
    rw [hnil]
    rfl
  · have hnil : expenses.filter (fun e =>
        campaigns.any (fun c => c.id == e.campaign && c.brand == b.id)
          && Date.le (today.replaceDay 1) e.date && Date.le e.date today) = [] := by
      refine List.filter_eq_nil_iff.mpr (fun e he => ?_)
      simp only [Bool.and_eq_true, not_and]
      exact fun hh hc => h e he hh.1 ⟨hh.2, hc⟩
    unfold Brand.spent_this_month
    rw [hnil]
    rfl
  · have hnil : expenses.filter (fun e =>
        e.campaign == c.id && e.date == today) = [] := by
      refine List.filter_eq_nil_iff.mpr (fun e he => ?_)
      simp only [Bool.and_eq_true, beq_iff_eq, not_and]
      exact fun ha => h e he ha
    unfold Campaign.spent_today
    rw [hnil]
    rfl
  · have hnil : expenses.filter (fun e =>
        e.campaign == c.id
          && Date.le (today.replaceDay 1) e.date && Date.le e.date today) = [] := by
      refine List.filter_eq_nil_iff.mpr (fun e he => ?_)
      simp only [Bool.and_eq_true, beq_iff_eq, not_and]
      exact fun hh hc => h e he hh.1 ⟨hh.2, hc⟩
    unfold Campaign.spent_this_month
    rw [hnil]
    rfl

/-- Witness for C4 on an empty expense table. -/
theorem C4_witness :
    Brand.spent_today (Brand.mk 1 0 0) (Date.mk 2026 1 1) [] [] = 0
    ∧ Brand.spent_this_month (Brand.mk 1 0 0) (Date.mk 2026 1 1) [] [] = 0
    ∧ Campaign.spent_today (Campaign.mk 1 1 0 0 true none none)
        (Date.mk 2026 1 1) [] = 0
    ∧ Campaign.spent_this_month (Campaign.mk 1 1 0 0 true none none)
        (Date.mk 2026 1 1) [] = 0 :=
  ⟨(C4_empty_period_zero (Brand.mk 1 0 0) (Campaign.mk 1 1 0 0 true none none)
      (Date.mk 2026 1 1) [] []).1 (by simp),
   (C4_empty_period_zero (Brand.mk 1 0 0) (Campaign.mk 1 1 0 0 true none none)
      (Date.mk 2026 1 1) [] []).2.1 (by simp),
   (C4_empty_period_zero (Brand.mk 1 0 0) (Campaign.mk 1 1 0 0 true none none)
      (Date.mk 2026 1 1) [] []).2.2.1 (by simp),
   (C4_empty_period_zero (Brand.mk 1 0 0) (Campaign.mk 1 1 0 0 true none none)
      (Date.mk 2026 1 1) [] []).2.2.2 (by simp)⟩

/-- C5: the day aggregates sum exactly the expenses dated on the
evaluation date, and the month aggregates sum exactly the expenses of the
evaluation date's calendar month with day between 1 and the evaluation
day, inclusive — a fixed-start window, not a trailing 30 days. -/
theorem C5_period_characterization (b : Brand) (c : Campaign) (today : Date)
    (campaigns : List Campaign) (expenses : List Expense) :
    Campaign.spent_today c today expenses
      = ((expenses.filter (fun e => e.campaign == c.id && e.date == today)).map
          Expense.amount).sum
    ∧ Campaign.spent_this_month c today expenses
      = ((expenses.filter (fun e => e.campaign == c.id
            && date_in_month e.date today)).map Expense.amount).sum
    ∧ Brand.spent_today b today campaigns expenses
      = ((expenses.filter (fun e =>
            campaigns.any (fun cc => cc.id == e.campaign && cc.brand == b.id)
              && e.date == today)).map Expense.amount).sum
    ∧ Brand.spent_this_month b today campaigns expenses
      = ((expenses.filter (fun e =>
            campaigns.any (fun cc => cc.id == e.campaign && cc.brand == b.id)
              && date_in_month e.date today)).map Expense.amount).sum := by
  refine ⟨?_, ?_, ?_, ?_⟩
  · simp only [Campaign.spent_today, or_zero_sum_amounts]
  · simp only [Campaign.spent_this_month, or_zero_sum_amounts, month_window_and]
  · simp only [Brand.spent_today, or_zero_sum_amounts]
  · simp only [Brand.spent_this_month, or_zero_sum_amounts, month_window_and]

/-- C6: the brand-scope aggregate equals the sum over the brand's
campaigns of the campaign-scope aggregates, for both the day and the month
period, given that campaign primary keys are unique. -/
theorem C6_brand_sums_campaigns (b : Brand) (today : Date)
    (campaigns : List Campaign) (expenses : List Expense)
    (hnd : (campaigns.map Campaign.id).Nodup) :
    Brand.spent_today b today campaigns expenses
      = ((campaigns.filter (fun c => c.brand == b.id)).map
          (fun c => Campaign.spent_today c today expenses)).sum
    ∧ Brand.spent_this_month b today campaigns expenses
      = ((campaigns.filter (fun c => c.brand == b.id)).map
          (fun c => Campaign.spent_this_month c today expenses)).sum := by
  constructor
  · simp only [Brand.spent_today, Campaign.spent_today, or_zero_sum_amounts]
    exact brand_split b.id campaigns expenses (fun e => e.date == today) hnd
  · simp only [Brand.spent_this_month, Campaign.spent_this_month,
      or_zero_sum_amounts, Bool.and_assoc]
    exact brand_split b.id campaigns expenses
      (fun e => Date.le (today.replaceDay 1) e.date && Date.le e.date today) hnd

/-- Witness for C6 on the sample database. -/
theorem C6_witness :
    Brand.spent_today (Brand.mk 1 0 0) (Date.mk 2026 5 10)
        sample_campaigns sample_expenses
      = ((sample_campaigns.filter (fun c => c.brand == (Brand.mk 1 0 0).id)).map
          (fun c => Campaign.spent_today c (Date.mk 2026 5 10) sample_expenses)).sum
    ∧ Brand.spent_this_month (Brand.mk 1 0 0) (Date.mk 2026 5 10)
        sample_campaigns sample_expenses
      = ((sample_campaigns.filter (fun c => c.brand == (Brand.mk 1 0 0).id)).map
          (fun c => Campaign.spent_this_month c (Date.mk 2026 5 10) sample_expenses)).sum :=
  C6_brand_sums_campaigns (Brand.mk 1 0 0) (Date.mk 2026 5 10)
    sample_campaigns sample_expenses (by decide)

/-- Case analysis of `authorize`: each decision code is returned exactly
when its check is the first failing one in the fixed evaluation order. -/
theorem authorize_spec (s : Snapshot) (p : Int) :
    (authorize s p = Decision.DENIED_INACTIVE ↔ s.campaign.active = false)
    ∧ (authorize s p = Decision.DENIED_OUT_OF_WINDOW ↔
        (s.campaign.active = true ∧
         is_within_window s.campaign s.schedule s.instant = false))
    ∧ (authorize s p = Decision.DENIED_BRAND_DAILY_CAP ↔
        (is_within_window s.campaign s.schedule s.instant = true ∧
         cap_fails s.brand.daily_budget s.brand_spent_today p = true))
    ∧ (authorize s p = Decision.DENIED_BRAND_MONTHLY_CAP ↔
        (is_within_window s.campaign s.schedule s.instant = true ∧
         cap_fails s.brand.daily_budget s.brand_spent_today p = false ∧
         cap_fails s.brand.monthly_budget s.brand_spent_month p = true))
    ∧ (authorize s p = Decision.DENIED_CAMPAIGN_DAILY_CAP ↔
        (is_within_window s.campaign s.schedule s.instant = true ∧
         cap_fails s.brand.daily_budget s.brand_spent_today p = false ∧
         cap_fails s.brand.monthly_budget s.brand_spent_month p = false ∧
         cap_fails s.campaign.daily_budget s.campaign_spent_today p = true))
    ∧ (authorize s p = Decision.DENIED_CAMPAIGN_MONTHLY_CAP ↔
        (is_within_window s.campaign s.schedule s.instant = true ∧
         cap_fails s.brand.daily_budget s.brand_spent_today p = false ∧
         cap_fails s.brand.monthly_budget s.brand_spent_month p = false ∧
         cap_fails s.campaign.daily_budget s.campaign_spent_today p = false ∧
         cap_fails s.campaign.monthly_budget s.campaign_spent_month p = true))
    ∧ (authorize s p = Decision.ALLOWED ↔
        (is_within_window s.campaign s.schedule s.instant = true ∧
         cap_fails s.brand.daily_budget s.brand_spent_today p = false ∧
         cap_fails s.brand.monthly_budget s.brand_spent_month p = false ∧
         cap_fails s.campaign.daily_budget s.campaign_spent_today p = false ∧
         cap_fails s.campaign.monthly_budget s.campaign_spent_month p = false)) := by
  unfold authorize
  cases ha : s.campaign.active <;>
    cases hw : is_within_window s.campaign s.schedule s.instant <;>
    cases h1 : cap_fails s.brand.daily_budget s.brand_spent_today p <;>
    cases h2 : cap_fails s.brand.monthly_budget s.brand_spent_month p <;>
    cases h3 : cap_fails s.campaign.daily_budget s.campaign_spent_today p <;>
    cases h4 : cap_fails s.campaign.monthly_budget s.campaign_spent_month p <;>
    simp_all [is_within_window]

/-- C7: `authorize` returns the denial code of the first failing check in
the order inactive, window, brand-day, brand-month, campaign-day,
campaign-month, and `ALLOWED` only when all checks pass; a cap check fails
iff the cap is non-zero and spent plus the proposed amount strictly
exceeds it; in scenario C the campaign daily cap wins over the ample brand
headroom. -/
theorem C7_first_failing_check :
    (∀ (s : Snapshot) (p : Int),
      (authorize s p = Decision.DENIED_INACTIVE ↔ s.campaign.active = false)
      ∧ (authorize s p = Decision.DENIED_OUT_OF_WINDOW ↔
          (s.campaign.active = true ∧
           is_within_window s.campaign s.schedule s.instant = false))
      ∧ (authorize s p = Decision.DENIED_BRAND_DAILY_CAP ↔
          (is_within_window s.campaign s.schedule s.instant = true ∧
           cap_fails s.brand.daily_budget s.brand_spent_today p = true))
      ∧ (authorize s p = Decision.DENIED_BRAND_MONTHLY_CAP ↔
          (is_within_window s.campaign s.schedule s.instant = true ∧
           cap_fails s.brand.daily_budget s.brand_spent_today p = false ∧
           cap_fails s.brand.monthly_budget s.brand_spent_month p = true))
      ∧ (authorize s p = Decision.DENIED_CAMPAIGN_DAILY_CAP ↔
          (is_within_window s.campaign s.schedule s.instant = true ∧
           cap_fails s.brand.daily_budget s.brand_spent_today p = false ∧
           cap_fails s.brand.monthly_budget s.brand_spent_month p = false ∧
           cap_fails s.campaign.daily_budget s.campaign_spent_today p = true))
      ∧ (authorize s p = Decision.DENIED_CAMPAIGN_MONTHLY_CAP ↔
          (is_within_window s.campaign s.schedule s.instant = true ∧
           cap_fails s.brand.daily_budget s.brand_spent_today p = false ∧
           cap_fails s.brand.monthly_budget s.brand_spent_month p = false ∧
           cap_fails s.campaign.daily_budget s.campaign_spent_today p = false ∧
           cap_fails s.campaign.monthly_budget s.campaign_spent_month p = true))
      ∧ (authorize s p = Decision.ALLOWED ↔
          (is_within_window s.campaign s.schedule s.instant = true ∧
           cap_fails s.brand.daily_budget s.brand_spent_today p = false ∧
           cap_fails s.brand.monthly_budget s.brand_spent_month p = false ∧
           cap_fails s.campaign.daily_budget s.campaign_spent_today p = false ∧
           cap_fails s.campaign.monthly_budget s.campaign_spent_month p = false)))
    ∧ (∀ (cap spent p : Int),
        cap_fails cap spent p = true ↔ (cap ≠ 0 ∧ cap < spent + p))
    ∧ authorize scenario_C 1000 = Decision.DENIED_CAMPAIGN_DAILY_CAP := by
  refine ⟨fun s p => authorize_spec s p, fun cap spent p => ?_, by decide⟩
  simp [cap_fails]

/-- C8: a zero-valued budget field means its scope is unbounded:
`authorize` never returns that scope's cap-denial code. -/
theorem C8_zero_cap_unbounded (s : Snapshot) (p : Int) :
    (s.brand.daily_budget = 0 →
      authorize s p ≠ Decision.DENIED_BRAND_DAILY_CAP)
    ∧ (s.brand.monthly_budget = 0 →
      authorize s p ≠ Decision.DENIED_BRAND_MONTHLY_CAP)
    ∧ (s.campaign.daily_budget = 0 →
      authorize s p ≠ Decision.DENIED_CAMPAIGN_DAILY_CAP)
    ∧ (s.campaign.monthly_budget = 0 →
      authorize s p ≠ Decision.DENIED_CAMPAIGN_MONTHLY_CAP) := by
  have hz : ∀ spent : Int, cap_fails 0 spent p = false := by
    intro spent
    simp [cap_fails]
  refine ⟨fun h hc => ?_, fun h hc => ?_, fun h hc => ?_, fun h hc => ?_⟩
  · have hch := ((authorize_spec s p).2.2.1).mp hc
    rw [h] at hch
    simp [hz] at hch
  · have hch := ((authorize_spec s p).2.2.2.1).mp hc
    rw [h] at hch
    simp [hz] at hch
  · have hch := ((authorize_spec s p).2.2.2.2.1).mp hc
    rw [h] at hch
    simp [hz] at hch
  · have hch := ((authorize_spec s p).2.2.2.2.2.1).mp hc
    rw [h] at hch
    simp [hz] at hch

/-- Witness for C8 at scenario B, whose four budget fields are all zero. -/
theorem C8_witness :
    authorize scenario_B 500 ≠ Decision.DENIED_BRAND_DAILY_CAP
    ∧ authorize scenario_B 500 ≠ Decision.DENIED_BRAND_MONTHLY_CAP
    ∧ authorize scenario_B 500 ≠ Decision.DENIED_CAMPAIGN_DAILY_CAP
    ∧ authorize scenario_B 500 ≠ Decision.DENIED_CAMPAIGN_MONTHLY_CAP :=
  ⟨(C8_zero_cap_unbounded scenario_B 500).1 rfl,
   (C8_zero_cap_unbounded scenario_B 500).2.1 rfl,
   (C8_zero_cap_unbounded scenario_B 500).2.2.1 rfl,
   (C8_zero_cap_unbounded scenario_B 500).2.2.2 rfl⟩

/-- C9: for non-negative spend and a positive cap, `capped_remaining` is
`max 0 (cap - spent)` and never negative, while `raw_remaining` is
`cap - spent` and can be negative (e.g. cap 10.00, spent 25.00). -/
theorem C9_ledger_remaining (cap spent : Int) (hs : 0 ≤ spent)
    (hc : 0 < cap) :
    capped_remaining cap spent = max 0 (cap - spent)
    ∧ 0 ≤ capped_remaining cap spent
    ∧ raw_remaining cap spent = cap - spent
    ∧ raw_remaining 1000 2500 < 0 :=
  ⟨rfl, le_max_left 0 _, rfl, by decide⟩

/-- Witness for C9 at cap 10.00, spent 3.00. -/
theorem C9_witness :
    capped_remaining 1000 300 = max 0 (1000 - 300)
    ∧ 0 ≤ capped_remaining 1000 300
    ∧ raw_remaining 1000 300 = 1000 - 300
    ∧ raw_remaining 1000 2500 < 0 :=
  C9_ledger_remaining 1000 300 (by decide) (by decide)

/-- C10 counterexample: the Expense model's `amount` field accepts the
negative amount -5.00 (and thus zero and negative amounts can be
recorded), refuting the claim that every recordable Expense has a
strictly positive amount. -/
theorem C10_counterexample :
    expense_amount_valid (-500) = true ∧ ¬(0 < (-500 : Int)) := by
  constructor
  · decide
  · decide

/-- C10 (amended): the Expense `amount` field constrains only the digit
bound of the decimal (12 digits, 2 of them fractional); positivity is not
enforced, so zero and negative amounts are recordable alongside positive
ones. -/
theorem C10_amount_unconstrained_sign :
    expense_amount_valid 0 = true
    ∧ expense_amount_valid (-500) = true
    ∧ expense_amount_valid 100 = true
    ∧ (∀ a : Int, expense_amount_valid a = true ↔ a.natAbs < 10 ^ 12) := by
  refine ⟨by decide, by decide, by decide, fun a => ?_⟩
  simp [expense_amount_valid]

end BudgetSystem
